import Mathlib

/-!
Shallow embedding of the selfie-records SDK (`src/main.rs`).

The SDK resolves TXT records for decentralized identity keys.  The pieces that
matter for the specification are:

* the two validation regexes (`validate_email_address`,
  `validate_domain_or_subdomain`),
* the query-name derivation (`get_txt_record_key`),
* the per-key batch loop of `get_records`, including the nameserver override.

The external DNS capability (`resolve_txt`) is modelled as an oracle
`String → String → Except String (List String)` taking the configured
nameserver and the query name.  The resolver's mutable nameserver (the only
state `get_records` touches) is passed in and returned explicitly.
-/

set_option maxRecDepth 8192

/-- Characters accepted by the regex character class `[a-zA-Z0-9-_]` used for
domain labels in `validate_domain_or_subdomain`: ASCII alphanumerics, hyphen
and underscore (the dash after `0-9` is literal). -/
def isLabelChar (c : Char) : Bool :=
  c.isAlphanum || c = '-' || c = '_'

/-- Characters matched by the regex class `\s` (Unicode White_Space), used
negated in the email regex `^[^\s@]+@[^\s@]+\.[^\s@]+$`. -/
def isWsp (c : Char) : Bool :=
  c = ' ' || c = '\t' || c = '\n' || c = '\r' || c = '\x0b' || c = '\x0c' ||
  c = '\x85' || c = '\xa0' || c = '\u1680' ||
  (decide (0x2000 ≤ c.toNat) && decide (c.toNat ≤ 0x200a)) ||
  c = '\u2028' || c = '\u2029' || c = '\u202f' || c = '\u205f' || c = '\u3000'

/-- Splits a character list at every occurrence of `sep`, exactly like Rust's
`str::split(char)`: `n` separators yield `n + 1` (possibly empty) pieces. -/
def splitChar (sep : Char) : List Char → List (List Char)
  | [] => [[]]
  | c :: rest =>
    if c = sep then [] :: splitChar sep rest
    else
      match splitChar sep rest with
      | [] => [[c]]
      | h :: t => (c :: h) :: t

/-- Detects the URI scheme prefix `://`, the target of the negative lookahead
`(?!:\/\/)` in the domain regex. -/
def startsWithScheme : List Char → Bool
  | ':' :: '/' :: '/' :: _ => true
  | _ => false

/-- Matching predicate of the domain regex
`^(?!:\/\/)([a-zA-Z0-9-_]+(\.[a-zA-Z0-9-_]+)+.*)$`.

The anchored pattern matches exactly when, after the (vacuous for label-led
strings) lookahead, the string decomposes as a nonempty label, a dot, a label
of at least one character, and then arbitrary characters consumed by `.*`.
The first `[a-zA-Z0-9-_]+` may as well take the maximal leading label run:
any shorter split would put the literal dot on a label character.  Since `.`
does not match a newline and `$` anchors at the end of the haystack, a string
containing `'\n'` after the mandatory `label.label`-prefix never matches; a
`'\n'` earlier is excluded by the label classes and the literal dot, so the
condition collapses to "no newline anywhere". -/
def domainRegexMatch (s : String) : Bool :=
  let cs := s.data
  if startsWithScheme cs then false
  else
    match cs.takeWhile isLabelChar, cs.dropWhile isLabelChar with
    | _ :: _, '.' :: d :: _ => isLabelChar d && !cs.contains '\n'
    | _, _ => false

/-- Matching predicate of the email regex `^[^\s@]+@[^\s@]+\.[^\s@]+$`.

The pattern forces exactly one `'@'` (both classes exclude it), no whitespace
anywhere, a nonempty local part, and a domain part that splits as
`nonempty ++ "." ++ nonempty`, i.e. that has a dot neither in first nor in
last position. -/
def emailRegexMatch (s : String) : Bool :=
  match splitChar '@' s.data with
  | [localPart, domainPart] =>
    !localPart.isEmpty && localPart.all (fun c => !isWsp c) &&
    !domainPart.isEmpty && domainPart.all (fun c => !isWsp c) &&
    ((domainPart.drop 1).dropLast.contains '.')
  | _ => false

/-- Parses one dotted-decimal octet the way Rust's `Ipv4Addr::from_str` does:
one to three ASCII digits, no leading zero (unless the octet is exactly "0"),
value at most 255. -/
def parseOctet (cs : List Char) : Option Nat :=
  if cs.isEmpty || 3 < cs.length then none
  else if !cs.all Char.isDigit then none
  else if 1 < cs.length && cs.headD '0' = '0' then none
  else
    let n := cs.foldl (fun a c => a * 10 + (c.toNat - 48)) 0
    if n ≤ 255 then some n else none

/-- Success predicate of `Ipv4Addr::from_str`: exactly four octets separated
by dots, each parsing per `parseOctet`. -/
def isIpv4 (s : String) : Bool :=
  match (splitChar '.' s.data).map parseOctet with
  | [some _, some _, some _, some _] => true
  | _ => false

/-- The constant `DEFAULT_RECORDS` of the source. -/
def DEFAULT_RECORDS : List String :=
  ["bitcoin-payment", "pgp", "nostr", "node-uri"]

/-- Per-key result map of the source: a two-entry `HashMap` with the fixed
keys "value" and "error", modelled as a structure with those two fields. -/
structure Outcome where
  value : Option String
  error : Option String
deriving DecidableEq, Repr

/-- Embedding of `SelfieRecordsSDK::validate_email_address`. -/
def validate_email_address (key name : String) : Option String :=
  if !emailRegexMatch name then
    some ("Invalid email name for key: " ++ key)
  else
    none

/-- Embedding of `SelfieRecordsSDK::validate_domain_or_subdomain`. -/
def validate_domain_or_subdomain (key name : String) : Option String :=
  if !domainRegexMatch name then
    some ("Invalid domain or subdomain name for key: " ++ key)
  else
    none

/-- Embedding of `SelfieRecordsSDK::get_txt_record_key`: identifiers holding
an `'@'` use the email template with the first two pieces of
`name.split('@')`; others use the domain template. -/
def get_txt_record_key (name key : String) : String :=
  if name.data.contains '@' then
    let parts := splitChar '@' name.data
    String.mk (parts.getD 0 []) ++ ".user._" ++ key ++ "." ++
      String.mk (parts.getD 1 [])
  else
    "_" ++ key ++ "." ++ name

/-- Embedding of `SelfieRecordsSDK::handle_error`: value absent, error set. -/
def handle_error (key : String) (error : String) : Outcome :=
  ⟨none, some error⟩

/-- Body of the per-key loop of `SelfieRecordsSDK::get_records`.  Returns the
key's `Outcome` together with the list of DNS queries issued for this key
(empty exactly when validation short-circuits with `continue`).  The oracle
`resolveTxt` stands for `resolve_txt` with the nameserver already fixed. -/
def process_key (resolveTxt : String → Except String (List String))
    (name key : String) : Outcome × List String :=
  let domain_check := validate_domain_or_subdomain key name
  let email_check := validate_email_address key name
  if domain_check.isSome && email_check.isSome then
    (⟨none, some (domain_check.getD (email_check.getD ""))⟩, [])
  else
    let domain_name := get_txt_record_key name key
    match resolveTxt domain_name with
    | Except.ok answers =>
      if answers.isEmpty then
        (⟨none, some "No TXT records found"⟩, [domain_name])
      else
        (⟨some (String.intercalate " " answers), none⟩, [domain_name])
    | Except.error e => (handle_error key e, [domain_name])

/-- Insertion into the results map, with `HashMap::insert` semantics on an
association list: replace the entry of an existing key, else append. -/
def insertAL (l : List (String × Outcome)) (k : String) (v : Outcome) :
    List (String × Outcome) :=
  match l with
  | [] => [(k, v)]
  | p :: rest => if p.1 = k then (k, v) :: rest else p :: insertAL rest k v

/-- Lookup in the results map. -/
def lookupAL (l : List (String × Outcome)) (k : String) : Option Outcome :=
  match l with
  | [] => none
  | p :: rest => if p.1 = k then some p.2 else lookupAL rest k

/-- Nameserver actually used by one `get_records` call: the override (or its
default "8.8.8.8") when it parses as IPv4 — then `update_nameservers` is
called — otherwise the resolver's current nameserver. -/
def effectiveNs (ns : String) (dns_server : Option String) : String :=
  let ds := dns_server.getD "8.8.8.8"
  if isIpv4 ds then ds else ns

/-- One iteration of the `get_records` loop: accumulate the key's outcome in
the results map and record the queries it issued. -/
def recStep (f : String → Outcome × List String)
    (acc : List (String × Outcome) × List String) (key : String) :
    List (String × Outcome) × List String :=
  (insertAL acc.1 key (f key).1, acc.2 ++ (f key).2)

/-- Embedding of `SelfieRecordsSDK::get_records`.  Besides the results map it
returns the list of DNS queries issued and the resolver's nameserver after
the call (its only mutable state). -/
def get_records (resolveTxt : String → String → Except String (List String))
    (ns name : String) (filters : Option (List String))
    (dns_server : Option String) :
    List (String × Outcome) × List String × String :=
  let fs := filters.getD DEFAULT_RECORDS
  let ns2 := effectiveNs ns dns_server
  let acc := fs.foldl (recStep (process_key (resolveTxt ns2) name)) ([], [])
  (acc.1, acc.2, ns2)

/-- Modelled from the spec's words (the parenthetical shape of the claim on
domain validation): one or more dot-separated labels of only
alphanumerics/hyphen/underscore, at least one dot, not beginning with "://".
Used only to compare the claimed shape with the implemented regex. -/
def specDomainShape (s : String) : Bool :=
  let labels := splitChar '.' s.data
  decide (2 ≤ labels.length) &&
    labels.all (fun l => !l.isEmpty && l.all isLabelChar) &&
    !startsWithScheme s.data

/-! ### Lemmas about the results map -/

theorem lookupAL_insertAL_self (l : List (String × Outcome)) (k : String)
    (v : Outcome) : lookupAL (insertAL l k v) k = some v := by
  induction l with
  | nil => simp [insertAL, lookupAL]
  | cons p rest ih =>
    by_cases h : p.1 = k
    · simp [insertAL, lookupAL, h]
    · simp [insertAL, lookupAL, h, ih]

theorem lookupAL_insertAL_ne (l : List (String × Outcome)) (k k2 : String)
    (v : Outcome) (h : k2 ≠ k) :
    lookupAL (insertAL l k v) k2 = lookupAL l k2 := by
  induction l with
  | nil => simp [insertAL, lookupAL, Ne.symm h]
  | cons p rest ih =>
    by_cases hp : p.1 = k
    · simp [insertAL, lookupAL, hp, Ne.symm h]
    · simp [insertAL, lookupAL, hp, ih]

theorem keys_insertAL (l : List (String × Outcome)) (k : String) (v : Outcome) :
    (insertAL l k v).map Prod.fst =
      if k ∈ l.map Prod.fst then l.map Prod.fst else l.map Prod.fst ++ [k] := by
  induction l with
  | nil => simp [insertAL]
  | cons p rest ih =>
    by_cases hp : p.1 = k
    · simp [insertAL, hp]
    · by_cases hm : k ∈ rest.map Prod.fst <;>
        simp [insertAL, hp, ih, hm, Ne.symm hp]

theorem nodup_insertAL (l : List (String × Outcome)) (k : String) (v : Outcome)
    (h : (l.map Prod.fst).Nodup) : ((insertAL l k v).map Prod.fst).Nodup := by
  rw [keys_insertAL]
  by_cases hm : k ∈ l.map Prod.fst
  · simpa [hm] using h
  · simp only [hm, if_false, List.nodup_append]
    refine ⟨h, List.nodup_singleton k, ?_⟩
    intro x hx hk
    simp only [List.mem_singleton] at hk
    exact hm (hk ▸ hx)

/-! ### Lemmas about the batch loop -/

theorem foldl_recStep_lookup (f : String → Outcome × List String)
    (keys : List String) :
    ∀ (acc : List (String × Outcome) × List String) (k : String),
      lookupAL (keys.foldl (recStep f) acc).1 k =
        if k ∈ keys then some (f k).1 else lookupAL acc.1 k := by
  induction keys with
  | nil => intro acc k; simp
  | cons k0 ks ih =>
    intro acc k
    simp only [List.foldl_cons]
    rw [ih]
    by_cases hk : k ∈ ks
    · simp [hk]
    · by_cases he : k = k0
      · subst he
        simp [hk, recStep, lookupAL_insertAL_self]
      · simp [hk, he, recStep, lookupAL_insertAL_ne _ _ _ _ he]

theorem foldl_recStep_nodup (f : String → Outcome × List String)
    (keys : List String) :
    ∀ acc : List (String × Outcome) × List String,
      (acc.1.map Prod.fst).Nodup →
      (((keys.foldl (recStep f) acc).1).map Prod.fst).Nodup := by
  induction keys with
  | nil => intro acc h; simpa using h
  | cons k0 ks ih =>
    intro acc h
    simp only [List.foldl_cons]
    exact ih _ (nodup_insertAL _ _ _ h)

theorem get_records_results_lookup
    (resolveTxt : String → String → Except String (List String))
    (ns name : String) (filters : Option (List String)) (ds : Option String)
    (key : String) :
    lookupAL (get_records resolveTxt ns name filters ds).1 key =
      if key ∈ filters.getD DEFAULT_RECORDS then
        some (process_key (resolveTxt (effectiveNs ns ds)) name key).1
      else none := by
  simp only [get_records]
  rw [foldl_recStep_lookup]
  rfl

/-! ### Lemmas about validation -/

theorem validate_domain_isSome_iff {key name : String} :
    (validate_domain_or_subdomain key name).isSome = true ↔
      domainRegexMatch name = false := by
  unfold validate_domain_or_subdomain
  by_cases hb : domainRegexMatch name <;> simp [hb]

theorem validate_email_isSome_iff {key name : String} :
    (validate_email_address key name).isSome = true ↔
      emailRegexMatch name = false := by
  unfold validate_email_address
  by_cases hb : emailRegexMatch name <;> simp [hb]

theorem validate_domain_isSome_eq {key name : String}
    (h : (validate_domain_or_subdomain key name).isSome = true) :
    validate_domain_or_subdomain key name =
      some ("Invalid domain or subdomain name for key: " ++ key) := by
  unfold validate_domain_or_subdomain at h ⊢
  by_cases hb : domainRegexMatch name <;> simp [hb] at h ⊢

theorem splitChar_of_not_mem {sep : Char} {cs : List Char} (h : sep ∉ cs) :
    splitChar sep cs = [cs] := by
  induction cs with
  | nil => rfl
  | cons c rest ih =>
    have hc : ¬ c = sep := fun e => h (by simp [e])
    have hr : sep ∉ rest := fun hm => h (List.mem_cons_of_mem _ hm)
    simp only [splitChar, if_neg hc, ih hr]

theorem splitChar_append {sep : Char} {l : List Char} (rest : List Char)
    (h : sep ∉ l) :
    splitChar sep (l ++ sep :: rest) = l :: splitChar sep rest := by
  induction l with
  | nil => simp [splitChar]
  | cons c cl ih =>
    have hc : ¬ c = sep := fun e => h (by simp [e])
    have ih2 := ih (fun hm => h (List.mem_cons_of_mem _ hm))
    simp only [List.cons_append, splitChar, if_neg hc, List.append_eq, ih2]

theorem emailRegexMatch_eq_false_of_no_at {s : String} (h : '@' ∉ s.data) :
    emailRegexMatch s = false := by
  unfold emailRegexMatch
  rw [splitChar_of_not_mem h]

/-! ### Case lemmas about the per-key loop body -/

theorem process_key_both_invalid (r : String → Except String (List String))
    {name key : String}
    (hd : (validate_domain_or_subdomain key name).isSome = true)
    (he : (validate_email_address key name).isSome = true) :
    process_key r name key =
      (⟨none, some ("Invalid domain or subdomain name for key: " ++ key)⟩, []) := by
  simp only [process_key]
  rw [validate_domain_isSome_eq hd]
  simp [he]

theorem process_key_lookup (r : String → Except String (List String))
    {name key : String}
    (hv : (validate_domain_or_subdomain key name).isSome = false ∨
          (validate_email_address key name).isSome = false) :
    process_key r name key =
      (match r (get_txt_record_key name key) with
       | Except.ok answers =>
         if answers.isEmpty then
           (⟨none, some "No TXT records found"⟩, [get_txt_record_key name key])
         else
           (⟨some (String.intercalate " " answers), none⟩,
             [get_txt_record_key name key])
       | Except.error e => (handle_error key e, [get_txt_record_key name key])) := by
  simp only [process_key]
  rcases hv with hv | hv <;> simp [hv]

theorem process_key_exactly_one (r : String → Except String (List String))
    (name key : String) :
    ((process_key r name key).1.value = none ∧
      ((process_key r name key).1.error).isSome = true) ∨
    (((process_key r name key).1.value).isSome = true ∧
      (process_key r name key).1.error = none) := by
  by_cases hb : ((validate_domain_or_subdomain key name).isSome &&
      (validate_email_address key name).isSome) = true
  · simp [process_key, hb]
  · rw [Bool.not_eq_true] at hb
    cases hr : r (get_txt_record_key name key) with
    | ok answers =>
      cases answers with
      | nil => left; simp [process_key, hb, hr]
      | cons a as => right; simp [process_key, hb, hr]
    | error e => left; simp [process_key, hb, hr, handle_error]

/-! ### Claim theorems -/

/-- C1: for every identifier, requested key list and nameserver argument,
`get_records` returns a map whose key set is exactly the set of distinct
requested keys (defaulting to the fixed four-key `DEFAULT_RECORDS` list when
the filter is omitted): each requested key has exactly one entry and no entry
exists for other keys. -/
theorem C1_batch_keyset
    (resolveTxt : String → String → Except String (List String))
    (ns name : String) (filters : Option (List String)) (ds : Option String) :
    (∀ k : String,
        (lookupAL (get_records resolveTxt ns name filters ds).1 k).isSome = true ↔
          k ∈ filters.getD DEFAULT_RECORDS) ∧
    (((get_records resolveTxt ns name filters ds).1).map Prod.fst).Nodup := by
  constructor
  · intro k
    rw [get_records_results_lookup]
    by_cases hk : k ∈ filters.getD DEFAULT_RECORDS <;> simp [hk]
  · simp only [get_records]
    exact foldl_recStep_nodup _ _ _ (by simp)

/-- C2: every Resolution Outcome produced by `get_records` has exactly one of
its "value" and "error" fields non-null — never both, never neither. -/
theorem C2_outcome_exclusive
    (resolveTxt : String → String → Except String (List String))
    (ns name : String) (filters : Option (List String)) (ds : Option String)
    (key : String) (oc : Outcome)
    (h : lookupAL (get_records resolveTxt ns name filters ds).1 key = some oc) :
    (oc.value = none ∧ oc.error.isSome = true) ∨
    (oc.value.isSome = true ∧ oc.error = none) := by
  rw [get_records_results_lookup] at h
  by_cases hk : key ∈ filters.getD DEFAULT_RECORDS
  · rw [if_pos hk] at h
    obtain rfl := Option.some.inj h
    have hpk := process_key_exactly_one
      (resolveTxt (effectiveNs ns ds)) name key
    rcases hpk with ⟨h1, h2⟩ | ⟨h1, h2⟩
    · exact Or.inl ⟨h1, h2⟩
    · exact Or.inr ⟨h1, h2⟩
  · rw [if_neg hk] at h
    exact absurd h (by simp)

/-- Witness for C2 at a concrete successful lookup. -/
theorem C2_outcome_exclusive_witness :
    ∃ oc : Outcome,
      lookupAL (get_records (fun _ _ => Except.ok ["v"]) "8.8.8.8"
          "example.com" (some ["pgp"]) none).1 "pgp" = some oc ∧
      ((oc.value = none ∧ oc.error.isSome = true) ∨
        (oc.value.isSome = true ∧ oc.error = none)) :=
  ⟨⟨some "v", none⟩, rfl,
    C2_outcome_exclusive (fun _ _ => Except.ok ["v"]) "8.8.8.8" "example.com"
      (some ["pgp"]) none "pgp" ⟨some "v", none⟩ rfl⟩

/-- C3: `get_records` always returns normally — every requested key has an
outcome in the result — and an underlying lookup failure surfaces only as the
failing key's descriptive error string (via `handle_error`), never as a
propagated error. -/
theorem C3_errors_localized
    (resolveTxt : String → String → Except String (List String))
    (ns name : String) (filters : Option (List String)) (ds : Option String)
    (key : String) (hk : key ∈ filters.getD DEFAULT_RECORDS) :
    (∃ oc : Outcome,
      lookupAL (get_records resolveTxt ns name filters ds).1 key = some oc) ∧
    (∀ e : String,
      ((validate_domain_or_subdomain key name).isSome = false ∨
        (validate_email_address key name).isSome = false) →
      resolveTxt (effectiveNs ns ds) (get_txt_record_key name key) =
        Except.error e →
      lookupAL (get_records resolveTxt ns name filters ds).1 key =
        some (handle_error key e)) := by
  constructor
  · exact ⟨_, by rw [get_records_results_lookup, if_pos hk]⟩
  · intro e hv hr
    rw [get_records_results_lookup, if_pos hk, process_key_lookup _ hv, hr]

/-- Witness for C3: an always-failing oracle still yields a result map with
the error string localized to the key's outcome. -/
theorem C3_errors_localized_witness :
    (∃ oc : Outcome,
      lookupAL (get_records (fun _ _ => Except.error "boom") "8.8.8.8"
          "example.com" none none).1 "pgp" = some oc) ∧
    lookupAL (get_records (fun _ _ => Except.error "boom") "8.8.8.8"
        "example.com" none none).1 "pgp" = some (handle_error "pgp" "boom") := by
  have h := C3_errors_localized (fun _ _ => Except.error "boom") "8.8.8.8"
    "example.com" none none "pgp" (by decide)
  exact ⟨h.1, h.2 "boom" (Or.inl (by decide)) rfl⟩

/-- C4: query-name derivation — an email-shaped identifier `local@domain`
(single `'@'`) derives `local ++ ".user._" ++ k ++ "." ++ domain`, a
domain-shaped identifier derives `"_" ++ k ++ "." ++ d`; in particular
"alice@example.com"/"pgp" derives "alice.user._pgp.example.com" and
"example.com"/"pgp" derives "_pgp.example.com". -/
theorem C4_query_name_derivation :
    (∀ localPart domain key : String,
        '@' ∉ localPart.data → '@' ∉ domain.data →
        get_txt_record_key (localPart ++ "@" ++ domain) key =
          localPart ++ ".user._" ++ key ++ "." ++ domain) ∧
    (∀ d key : String, '@' ∉ d.data →
        get_txt_record_key d key = "_" ++ key ++ "." ++ d) ∧
    get_txt_record_key "alice@example.com" "pgp" =
      "alice.user._pgp.example.com" ∧
    get_txt_record_key "example.com" "pgp" = "_pgp.example.com" := by
  refine ⟨?_, ?_, rfl, rfl⟩
  · intro localPart domain key hl hd
    have hdata : (localPart ++ "@" ++ domain).data =
        localPart.data ++ '@' :: domain.data := by
      simp [String.data_append]
    have h1 : splitChar '@' (localPart.data ++ '@' :: domain.data) =
        [localPart.data, domain.data] := by
      rw [splitChar_append domain.data hl, splitChar_of_not_mem hd]
    unfold get_txt_record_key
    rw [hdata, h1]
    simp [List.getD]
  · intro d key hd
    have hc : d.data.contains '@' = false := by
      simp only [List.contains_eq_any_beq, List.any_eq_false]
      intro c hcm
      simp only [beq_iff_eq]
      intro e
      exact hd (e ▸ hcm)
    unfold get_txt_record_key
    rw [hc]
    simp

/-- Witness for C4 at the spec's two concrete instances. -/
theorem C4_query_name_derivation_witness :
    get_txt_record_key ("alice" ++ "@" ++ "example.com") "pgp" =
      "alice" ++ ".user._" ++ "pgp" ++ "." ++ "example.com" ∧
    get_txt_record_key "example.com" "pgp" = "_" ++ "pgp" ++ "." ++ "example.com" :=
  ⟨C4_query_name_derivation.1 "alice" "example.com" "pgp" (by decide) (by decide),
   C4_query_name_derivation.2.1 "example.com" "pgp" (by decide)⟩

/-- C5: when the domain-shape check and the email-shape check both flag the
identifier invalid, the key's outcome carries the domain-shape message
"Invalid domain or subdomain name for key: <key>", which takes priority over
the email-shape message. -/
theorem C5_domain_error_priority
    (resolveTxt : String → String → Except String (List String))
    (ns name : String) (filters : Option (List String)) (ds : Option String)
    (key : String) (hk : key ∈ filters.getD DEFAULT_RECORDS)
    (hd : (validate_domain_or_subdomain key name).isSome = true)
    (he : (validate_email_address key name).isSome = true) :
    lookupAL (get_records resolveTxt ns name filters ds).1 key =
      some ⟨none, some ("Invalid domain or subdomain name for key: " ++ key)⟩ := by
  rw [get_records_results_lookup, if_pos hk, process_key_both_invalid _ hd he]

/-- Witness for C5 at "a@b", which both checks reject. -/
theorem C5_domain_error_priority_witness :
    lookupAL (get_records (fun _ _ => Except.ok ["X"]) "8.8.8.8" "a@b"
        (some ["pgp"]) none).1 "pgp" =
      some ⟨none, some ("Invalid domain or subdomain name for key: " ++ "pgp")⟩ :=
  C5_domain_error_priority (fun _ _ => Except.ok ["X"]) "8.8.8.8" "a@b"
    (some ["pgp"]) none "pgp" (by decide) (by decide) (by decide)

/-- C6 counterexample: the identifier "a.b c" contains no `'@'` and fails the
claimed domain shape (its dot-separated labels would have to contain a
space), yet `get_records` issues a lookup for it and returns the lookup's
value instead of the claimed validation error: the implemented regex accepts
arbitrary trailing text after one `label.label` prefix. -/
theorem C6_counterexample :
    specDomainShape "a.b c" = false ∧
    ("a.b c".data.contains '@') = false ∧
    (get_records (fun _ _ => Except.ok ["X"]) "8.8.8.8" "a.b c"
        (some ["pgp"]) none).2.1 = ["_pgp.a.b c"] ∧
    lookupAL (get_records (fun _ _ => Except.ok ["X"]) "8.8.8.8" "a.b c"
        (some ["pgp"]) none).1 "pgp" = some ⟨some "X", none⟩ :=
  ⟨rfl, rfl, rfl, rfl⟩

/-- C6 amended: for every identifier containing no `'@'` that fails the
implemented domain regex — a nonempty `[a-zA-Z0-9-_]` label, a dot and a
further label character as a prefix, arbitrary trailing non-newline text
allowed — every requested key's outcome is the Error
"Invalid domain or subdomain name for key: <key>" and no lookup is attempted
for that key; in particular "not a domain" yields this error with no lookup. -/
theorem C6_amended_domain_validation
    (resolveTxt : String → String → Except String (List String))
    (ns name : String) (filters : Option (List String)) (ds : Option String)
    (key : String) (hk : key ∈ filters.getD DEFAULT_RECORDS)
    (hat : '@' ∉ name.data) (hdm : domainRegexMatch name = false) :
    lookupAL (get_records resolveTxt ns name filters ds).1 key =
      some ⟨none, some ("Invalid domain or subdomain name for key: " ++ key)⟩ ∧
    (process_key (resolveTxt (effectiveNs ns ds)) name key).2 = [] := by
  have hd : (validate_domain_or_subdomain key name).isSome = true :=
    validate_domain_isSome_iff.mpr hdm
  have he : (validate_email_address key name).isSome = true :=
    validate_email_isSome_iff.mpr (emailRegexMatch_eq_false_of_no_at hat)
  constructor
  · rw [get_records_results_lookup, if_pos hk, process_key_both_invalid _ hd he]
  · rw [process_key_both_invalid _ hd he]

/-- Witness for the amended C6 at the spec's example "not a domain". -/
theorem C6_amended_domain_validation_witness :
    lookupAL (get_records (fun _ _ => Except.ok ["X"]) "8.8.8.8"
        "not a domain" none none).1 "pgp" =
      some ⟨none, some ("Invalid domain or subdomain name for key: " ++ "pgp")⟩ ∧
    (process_key (((fun _ _ => Except.ok ["X"]) :
        String → String → Except String (List String))
        (effectiveNs "8.8.8.8" none)) "not a domain" "pgp").2 = [] :=
  C6_amended_domain_validation (fun _ _ => Except.ok ["X"]) "8.8.8.8"
    "not a domain" none none "pgp" (by decide) (by decide) (by decide)

/-- C7 counterexample: "a@b" contains exactly one `'@'` (its split at `'@'`
has exactly two pieces) and fails the email shape, but the emitted error is
the domain-shape message, not "Invalid email name for key: pgp" as the claim
requires. -/
theorem C7_counterexample :
    (splitChar '@' "a@b".data).length = 2 ∧
    emailRegexMatch "a@b" = false ∧
    lookupAL (get_records (fun _ _ => Except.ok ["X"]) "8.8.8.8" "a@b"
        (some ["pgp"]) none).1 "pgp" =
      some ⟨none, some "Invalid domain or subdomain name for key: pgp"⟩ ∧
    lookupAL (get_records (fun _ _ => Except.ok ["X"]) "8.8.8.8" "a@b"
        (some ["pgp"]) none).1 "pgp" ≠
      some ⟨none, some "Invalid email name for key: pgp"⟩ :=
  ⟨rfl, rfl, rfl, by decide⟩

/-- C7 amended: for every identifier with exactly one `'@'` that fails the
email shape, the email-shape message is never emitted: if the identifier also
fails the domain regex, the key's outcome is the domain-shape error
"Invalid domain or subdomain name for key: <key>" and no lookup is attempted;
if it passes the domain regex, a lookup is attempted instead. -/
theorem C7_amended_email_validation
    (resolveTxt : String → String → Except String (List String))
    (ns name : String) (filters : Option (List String)) (ds : Option String)
    (key : String) (hk : key ∈ filters.getD DEFAULT_RECORDS)
    (hone : (splitChar '@' name.data).length = 2)
    (hem : emailRegexMatch name = false) :
    (domainRegexMatch name = false →
      lookupAL (get_records resolveTxt ns name filters ds).1 key =
        some ⟨none, some ("Invalid domain or subdomain name for key: " ++ key)⟩ ∧
      (process_key (resolveTxt (effectiveNs ns ds)) name key).2 = []) ∧
    (domainRegexMatch name = true →
      (process_key (resolveTxt (effectiveNs ns ds)) name key).2 =
        [get_txt_record_key name key]) := by
  constructor
  · intro hdm
    have hd : (validate_domain_or_subdomain key name).isSome = true :=
      validate_domain_isSome_iff.mpr hdm
    have he : (validate_email_address key name).isSome = true :=
      validate_email_isSome_iff.mpr hem
    exact ⟨by rw [get_records_results_lookup, if_pos hk,
             process_key_both_invalid _ hd he],
           by rw [process_key_both_invalid _ hd he]⟩
  · intro hdm
    have hv : (validate_domain_or_subdomain key name).isSome = false ∨
        (validate_email_address key name).isSome = false :=
      Or.inl (by simp [validate_domain_or_subdomain, hdm])
    rw [process_key_lookup _ hv]
    cases hr : resolveTxt (effectiveNs ns ds) (get_txt_record_key name key) with
    | ok answers => by_cases ha : answers.isEmpty <;> simp [ha]
    | error e => rfl

/-- Witness for the amended C7 at "a@b" (one `'@'`, email and domain shape
both failing). -/
theorem C7_amended_email_validation_witness :
    lookupAL (get_records (fun _ _ => Except.ok ["X"]) "8.8.8.8" "a@b"
        (some ["pgp"]) none).1 "pgp" =
      some ⟨none, some ("Invalid domain or subdomain name for key: " ++ "pgp")⟩ ∧
    (process_key (((fun _ _ => Except.ok ["X"]) :
        String → String → Except String (List String))
        (effectiveNs "8.8.8.8" none)) "a@b" "pgp").2 = [] :=
  (C7_amended_email_validation (fun _ _ => Except.ok ["X"]) "8.8.8.8" "a@b"
    (some ["pgp"]) none "pgp" (by decide) (by decide) (by decide)).1 (by decide)

/-- C8: a key whose lookup succeeds maps zero TXT records to exactly the
Error "No TXT records found" and one-or-more records to a Value equal to the
records joined with single spaces in lookup order. -/
theorem C8_success_mapping
    (resolveTxt : String → String → Except String (List String))
    (ns name : String) (filters : Option (List String)) (ds : Option String)
    (key : String) (answers : List String)
    (hk : key ∈ filters.getD DEFAULT_RECORDS)
    (hv : (validate_domain_or_subdomain key name).isSome = false ∨
          (validate_email_address key name).isSome = false)
    (hr : resolveTxt (effectiveNs ns ds) (get_txt_record_key name key) =
      Except.ok answers) :
    lookupAL (get_records resolveTxt ns name filters ds).1 key =
      some (if answers.isEmpty then ⟨none, some "No TXT records found"⟩
            else ⟨some (String.intercalate " " answers), none⟩) := by
  rw [get_records_results_lookup, if_pos hk, process_key_lookup _ hv, hr]
  by_cases ha : answers.isEmpty <;> simp [ha]

/-- Witness for C8 at both a nonempty and an empty successful lookup. -/
theorem C8_success_mapping_witness :
    lookupAL (get_records (fun _ _ => Except.ok ["v=1", "k=abc"]) "8.8.8.8"
        "example.com" (some ["pgp"]) none).1 "pgp" =
      some (if (["v=1", "k=abc"] : List String).isEmpty then
              ⟨none, some "No TXT records found"⟩
            else ⟨some (String.intercalate " " ["v=1", "k=abc"]), none⟩) ∧
    lookupAL (get_records (fun _ _ => Except.ok []) "8.8.8.8"
        "example.com" (some ["pgp"]) none).1 "pgp" =
      some (if ([] : List String).isEmpty then
              ⟨none, some "No TXT records found"⟩
            else ⟨some (String.intercalate " " []), none⟩) :=
  ⟨C8_success_mapping (fun _ _ => Except.ok ["v=1", "k=abc"]) "8.8.8.8"
      "example.com" (some ["pgp"]) none "pgp" ["v=1", "k=abc"]
      (by decide) (Or.inl (by decide)) rfl,
   C8_success_mapping (fun _ _ => Except.ok []) "8.8.8.8"
      "example.com" (some ["pgp"]) none "pgp" []
      (by decide) (Or.inl (by decide)) rfl⟩

/-- C9 counterexample: with the resolver's nameserver previously set to
"1.1.1.1" (as a valid override of an earlier call leaves it), the
unparseable override "not-an-ip" keeps using "1.1.1.1" while omitting the
override resets the nameserver to "8.8.8.8": the two calls differ. -/
theorem C9_counterexample :
    isIpv4 "not-an-ip" = false ∧
    lookupAL (get_records (fun ns _ => Except.ok [ns]) "1.1.1.1" "example.com"
        (some ["pgp"]) (some "not-an-ip")).1 "pgp" =
      some ⟨some "1.1.1.1", none⟩ ∧
    lookupAL (get_records (fun ns _ => Except.ok [ns]) "1.1.1.1" "example.com"
        (some ["pgp"]) none).1 "pgp" = some ⟨some "8.8.8.8", none⟩ ∧
    get_records (fun ns _ => Except.ok [ns]) "1.1.1.1" "example.com"
        (some ["pgp"]) (some "not-an-ip") ≠
      get_records (fun ns _ => Except.ok [ns]) "1.1.1.1" "example.com"
        (some ["pgp"]) none :=
  ⟨rfl, rfl, rfl, by decide⟩

/-- C9 amended: an unparseable nameserver override is silently ignored,
keeping the previously configured nameserver in use for all lookups of the
call; this coincides with omitting the override exactly when the current
nameserver is already the default "8.8.8.8", because omission re-applies the
default (which parses as IPv4) rather than leaving the state untouched. -/
theorem C9_amended_override_fallback
    (resolveTxt : String → String → Except String (List String))
    (ns name : String) (filters : Option (List String)) (ds : String)
    (h : isIpv4 ds = false) :
    effectiveNs ns (some ds) = ns ∧
    (ns = "8.8.8.8" →
      get_records resolveTxt ns name filters (some ds) =
        get_records resolveTxt ns name filters none) := by
  constructor
  · simp [effectiveNs, h]
  · intro hns
    subst hns
    simp [get_records, effectiveNs, h]

/-- Witness for the amended C9 with the spec's "not-an-ip" override. -/
theorem C9_amended_override_fallback_witness :
    effectiveNs "8.8.8.8" (some "not-an-ip") = "8.8.8.8" ∧
    get_records (fun _ _ => Except.ok ["X"]) "8.8.8.8" "example.com" none
        (some "not-an-ip") =
      get_records (fun _ _ => Except.ok ["X"]) "8.8.8.8" "example.com" none
        none := by
  have h := C9_amended_override_fallback (fun _ _ => Except.ok ["X"])
    "8.8.8.8" "example.com" none "not-an-ip" (by decide)
  exact ⟨h.1, h.2 rfl⟩

/-- C10: the identifier "a.b@c" passes the domain-shape check while failing
the email-shape check, yet its query name is derived with the email template
by splitting at the first `'@'`, yielding "a.b.user._pgp.c", and a lookup is
attempted there: derivation shape is decided solely by the presence of `'@'`
and can disagree with the shape under which the identifier validated. -/
theorem C10_shape_mismatch :
    validate_domain_or_subdomain "pgp" "a.b@c" = none ∧
    (validate_email_address "pgp" "a.b@c").isSome = true ∧
    ("a.b@c".data.contains '@') = true ∧
    get_txt_record_key "a.b@c" "pgp" = "a.b.user._pgp.c" ∧
    (get_records (fun _ _ => Except.ok ["X"]) "8.8.8.8" "a.b@c"
        (some ["pgp"]) none).2.1 = ["a.b.user._pgp.c"] :=
  ⟨rfl, rfl, rfl, rfl, rfl⟩
